import Mathlib

/-!
Verification of the highlight-box overlay and auto-zoom transform engine of
the voice-rag-ui repository, embedded from the `PageOverlay` component in
`src/App.jsx`.  Coordinates are modelled over ℚ; the JavaScript code never
produces NaN/Infinity on the paths embedded here because every division is
guarded (`naturalW ? _ : 1`, `Math.max(1, _)`), so ℚ is faithful.
-/

namespace VoiceRagUI

/-- A highlight region rectangle `{x, y, w, h}` (a "box"), either in
normalized [0,1] coordinates or in source-pixel coordinates depending on the
`boxesAreNormalized` flag of the overlay instance. -/
structure Box where
  x : ℚ
  y : ℚ
  w : ℚ
  h : ℚ
deriving DecidableEq

/-- The `dims` state of `PageOverlay`: intrinsic (natural) and rendered
(client) sizes of the displayed image plus the `ready` flag. -/
structure Dims where
  naturalW : ℚ
  naturalH : ℚ
  clientW : ℚ
  clientH : ℚ
  ready : Bool
deriving DecidableEq

/-- The `apply` closure of the dimension-tracking effect (App.jsx lines
20-27): it reads the observed sizes and computes
`ready = naturalW > 0 && naturalH > 0 && clientW > 0 && clientH > 0`. -/
def applyDims (naturalW naturalH clientW clientH : ℚ) : Dims :=
  { naturalW := naturalW
    naturalH := naturalH
    clientW := clientW
    clientH := clientH
    ready := decide (0 < naturalW) && decide (0 < naturalH)
               && decide (0 < clientW) && decide (0 < clientH) }

/-- `toPx` (App.jsx lines 38-51): convert a box to client-pixel coordinates.
In the normalized branch each coordinate is multiplied by the rendered size;
in the source-pixel branch a per-axis scale `clientW / naturalW` (resp.
`clientH / naturalH`) is used, falling back to scale 1 when the intrinsic
size is zero (JavaScript truthiness of `dims.naturalW`). -/
def toPx (boxesAreNormalized : Bool) (dims : Dims) (b : Box) : Box :=
  if boxesAreNormalized then
    { x := b.x * dims.clientW
      y := b.y * dims.clientH
      w := b.w * dims.clientW
      h := b.h * dims.clientH }
  else
    let scaleX : ℚ := if dims.naturalW ≠ 0 then dims.clientW / dims.naturalW else 1
    let scaleY : ℚ := if dims.naturalH ≠ 0 then dims.clientH / dims.naturalH else 1
    { x := b.x * scaleX, y := b.y * scaleY, w := b.w * scaleX, h := b.h * scaleY }

/-- The zoom transform applied to the image: a uniform scale factor and a 2D
translation in render-space pixels.  In the code this is the CSS string
`translate(calc(50% - cx px), calc(50% - cy px)) scale(zoom)`; the `50%`
refers to the rendered size of the image itself, i.e. `clientW / 2` and
`clientH / 2`. -/
structure Transform where
  scale : ℚ
  tx : ℚ
  ty : ℚ
deriving DecidableEq

/-- The identity transform (the CSS value `"none"`): scale 1, translation 0. -/
def identityTransform : Transform := { scale := 1, tx := 0, ty := 0 }

/-- The zoom-transform computation of App.jsx lines 53-64.  Returns `some t`
when a zoom transform is computed (frame ready, zoom active, and a first box
exists), and `none` when the image is left untransformed (`transform =
"none"`). -/
def computeZoom (boxesAreNormalized : Bool) (dims : Dims) (zoomOn : Bool)
    (boxes : List Box) : Option Transform :=
  match boxes.head? with
  | none => none
  | some firstBox =>
    if dims.ready && zoomOn then
      let bpx := toPx boxesAreNormalized dims firstBox
      let zoom : ℚ := min 4 (max 1 (min (dims.clientW / max 1 bpx.w)
                                        (dims.clientH / max 1 bpx.h)))
      let cx := bpx.x + bpx.w / 2
      let cy := bpx.y + bpx.h / 2
      some { scale := zoom, tx := dims.clientW / 2 - cx, ty := dims.clientH / 2 - cy }
    else none

/-- The transform actually set on the image element: the computed zoom when
available, the identity otherwise. -/
def renderedTransform (boxesAreNormalized : Bool) (dims : Dims) (zoomOn : Bool)
    (boxes : List Box) : Transform :=
  (computeZoom boxesAreNormalized dims zoomOn boxes).getD identityTransform

/-- The overlay state machine: the region sequence (`boxes` prop) together
with the `zoomOn` component state.  `zoomOn = true` is the Zoomed state,
`zoomOn = false` the Fitted state. -/
structure OverlayState where
  boxes : List Box
  zoomOn : Bool
deriving DecidableEq

/-- Initial state (App.jsx line 10): `zoomOn = Boolean(boxes?.length)`,
i.e. Zoomed iff the region sequence is non-empty. -/
def initState (boxes : List Box) : OverlayState :=
  { boxes := boxes, zoomOn := !boxes.isEmpty }

/-- The toggle button (App.jsx lines 105-113): flips `zoomOn`; the button is
disabled when no box exists, so toggling with zero regions is a no-op. -/
def toggle (s : OverlayState) : OverlayState :=
  if s.boxes.isEmpty then s else { s with zoomOn := !s.zoomOn }

/-- A change of the `boxes` prop.  The effect at App.jsx line 15,
`useEffect(() => setZoomOn(Boolean(boxes?.length)), [boxes?.length])`, has
the LENGTH of the sequence as its only dependency, so `zoomOn` is reset to
the initial value for the new sequence only when the number of boxes
changed; otherwise the prior toggle choice is preserved. -/
def regionsChanged (s : OverlayState) (newBoxes : List Box) : OverlayState :=
  if newBoxes.length = s.boxes.length then
    { boxes := newBoxes, zoomOn := s.zoomOn }
  else
    { boxes := newBoxes, zoomOn := !newBoxes.isEmpty }

/-- States of the overlay reachable from some initial state through toggle
and region-change events. -/
inductive Reachable : OverlayState → Prop
  | init (boxes : List Box) : Reachable (initState boxes)
  | step_toggle {s : OverlayState} : Reachable s → Reachable (toggle s)
  | step_regions {s : OverlayState} (newBoxes : List Box) :
      Reachable s → Reachable (regionsChanged s newBoxes)

/-- The rendered composite: the transform on the image and the list of box
outlines drawn over it (App.jsx lines 66-102; outlines are drawn exactly
when `!zoomOn && hasBox`, each mapped through `toPx`). -/
structure Rendering where
  transform : Transform
  outlines : List Box
deriving DecidableEq

/-- The rendering produced by the component for a given state and frame. -/
def render (boxesAreNormalized : Bool) (dims : Dims) (s : OverlayState) : Rendering :=
  { transform := renderedTransform boxesAreNormalized dims s.zoomOn s.boxes
    outlines :=
      if !s.zoomOn && !s.boxes.isEmpty then
        s.boxes.map (toPx boxesAreNormalized dims)
      else [] }

/-- The candidate-scale-and-clamp formula as the specification states it:
`min(renderedW / max(1, w), renderedH / max(1, h))` clamped to `[1, 4]`. -/
def specZoomScale (dims : Dims) (bpx : Box) : ℚ :=
  max 1 (min 4 (min (dims.clientW / max 1 bpx.w) (dims.clientH / max 1 bpx.h)))

/-- An overlay state reached through the actual events always has
`zoomOn = false` when the region sequence is empty: the initial state for an
empty sequence is Fitted, toggling is a no-op with no boxes, and a region
change to a different count resets the state. -/
theorem reachable_empty_not_zoomed {s : OverlayState} (h : Reachable s) :
    s.boxes = [] → s.zoomOn = false := by
  induction h with
  | init boxes =>
    intro hempty
    simp [initState] at hempty ⊢
    simp [hempty]
  | step_toggle h ih =>
    intro hempty
    rename_i s
    by_cases hs : s.boxes.isEmpty
    · simp [toggle, hs] at hempty ⊢
      exact ih hempty
    · simp [toggle, hs] at hempty
      simp [List.isEmpty_iff] at hs
      exact absurd hempty hs
  | step_regions newBoxes h ih =>
    intro hempty
    rename_i s
    by_cases hlen : newBoxes.length = s.boxes.length
    · simp [regionsChanged, hlen] at hempty ⊢
      subst hempty
      simp at hlen
      exact ih (List.length_eq_zero.mp hlen.symm)
    · simp [regionsChanged, hlen] at hempty ⊢
      simp [hempty]

/-- Claim C1: for every ready frame and every primary region, the zoom scale
computed by the zoom-transform calculation equals
`min(renderedW / max(1, bpx.w), renderedH / max(1, bpx.h))` clamped to
`[1, 4]`; in particular, for a normalized region `{x:1/2, y:1/2, w:0, h:0}`
on a ready frame rendered at 800 by 600 the computed scale is exactly 4, not
infinity. -/
theorem C1_zoom_scale (norm : Bool) (d : Dims) (bs : List Box) (b : Box)
    (hhead : bs.head? = some b) (hready : d.ready = true) :
    (computeZoom norm d true bs).map Transform.scale = some (specZoomScale d (toPx norm d b))
    ∧ (computeZoom true (applyDims 1000 1000 800 600) true
        [⟨1/2, 1/2, 0, 0⟩]).map Transform.scale = some 4 := by
  constructor
  · cases bs with
    | nil => simp at hhead
    | cons hd tl =>
      simp at hhead
      subst hhead
      simp [computeZoom, hready, specZoomScale, max_min_distrib_left]
  · norm_num [computeZoom, toPx, applyDims]

/-- Witness for C1 at the frame rendered 800 by 600 and the degenerate
centered region. -/
theorem C1_zoom_scale_witness :
    (computeZoom true (applyDims 1000 1000 800 600) true [⟨1/2, 1/2, 0, 0⟩]).map
        Transform.scale
      = some (specZoomScale (applyDims 1000 1000 800 600)
          (toPx true (applyDims 1000 1000 800 600) ⟨1/2, 1/2, 0, 0⟩)) :=
  (C1_zoom_scale true (applyDims 1000 1000 800 600) [⟨1/2, 1/2, 0, 0⟩] ⟨1/2, 1/2, 0, 0⟩
    rfl (by norm_num [applyDims])).1

/-- Claim C2: for every ready frame and primary region with mapped rectangle
`bpx`, the zoom translation is `(clientW/2 - cx, clientH/2 - cy)` where
`(cx, cy)` is the centroid of `bpx`; in particular, for the frame with
intrinsic size 1000 by 1400 rendered at 500 by 700 and the source-pixel
region `{100, 200, 200, 50}` (mapped to `{50, 100, 100, 25}`), the centroid
`(100, 225/2)` is carried to the viewport center `(250, 350)`. -/
theorem C2_translation (norm : Bool) (d : Dims) (bs : List Box) (b : Box)
    (hhead : bs.head? = some b) (hready : d.ready = true) :
    (∃ t, computeZoom norm d true bs = some t
       ∧ t.tx = d.clientW / 2 - ((toPx norm d b).x + (toPx norm d b).w / 2)
       ∧ t.ty = d.clientH / 2 - ((toPx norm d b).y + (toPx norm d b).h / 2))
    ∧ toPx false (applyDims 1000 1400 500 700) ⟨100, 200, 200, 50⟩ = ⟨50, 100, 100, 25⟩
    ∧ computeZoom false (applyDims 1000 1400 500 700) true [⟨100, 200, 200, 50⟩]
        = some ⟨4, 250 - 100, 350 - 225/2⟩ := by
  refine ⟨?_, by norm_num [toPx, applyDims], by norm_num [computeZoom, toPx, applyDims]⟩
  cases bs with
  | nil => simp at hhead
  | cons hd tl =>
    simp at hhead
    subst hhead
    refine ⟨{ scale := min 4 (max 1 (min (d.clientW / max 1 (toPx norm d hd).w)
                                         (d.clientH / max 1 (toPx norm d hd).h)))
              tx := d.clientW / 2 - ((toPx norm d hd).x + (toPx norm d hd).w / 2)
              ty := d.clientH / 2 - ((toPx norm d hd).y + (toPx norm d hd).h / 2) },
           ?_, rfl, rfl⟩
    simp [computeZoom, hready]

/-- Witness for C2 at the scenario frame and source-pixel region. -/
theorem C2_translation_witness :
    computeZoom false (applyDims 1000 1400 500 700) true [⟨100, 200, 200, 50⟩]
      = some ⟨4, 250 - 100, 350 - 225/2⟩ :=
  (C2_translation false (applyDims 1000 1400 500 700) [⟨100, 200, 200, 50⟩]
    ⟨100, 200, 200, 50⟩ rfl (by norm_num [applyDims])).2.2

/-- Claim C3: whenever the frame is not ready, and likewise whenever no
primary region exists, the zoom computation signals that no zoom is
available (`none`) and the transform applied to the image is the identity
(scale 1, translation 0); no error is raised. -/
theorem C3_identity_when_not_ready_or_no_region (norm : Bool) (d : Dims) (z : Bool)
    (bs : List Box) (h : d.ready = false ∨ bs = []) :
    computeZoom norm d z bs = none
    ∧ renderedTransform norm d z bs = identityTransform := by
  have hz : computeZoom norm d z bs = none := by
    rcases h with h | h
    · cases bs with
      | nil => simp [computeZoom]
      | cons hd tl => simp [computeZoom, h]
    · subst h
      simp [computeZoom]
  exact ⟨hz, by simp [renderedTransform, hz]⟩

/-- Witness for C3 at a not-ready frame with a region present. -/
theorem C3_identity_witness :
    computeZoom true (applyDims 0 0 0 0) true [⟨0, 0, 1, 1⟩] = none
    ∧ renderedTransform true (applyDims 0 0 0 0) true [⟨0, 0, 1, 1⟩] = identityTransform :=
  C3_identity_when_not_ready_or_no_region true (applyDims 0 0 0 0) true [⟨0, 0, 1, 1⟩]
    (Or.inl (by norm_num [applyDims]))

/-- Claim C4: for every source-pixel region on a frame with non-zero
intrinsic sizes, `toPx` scales x and w by `clientW / naturalW` and y and h
by `clientH / naturalH` (independent per-axis scales); in particular the
frame with intrinsic size 1000 by 1400 rendered at 500 by 700 maps the
region `{100, 200, 200, 50}` to `{50, 100, 100, 25}`. -/
theorem C4_source_pixel_per_axis (d : Dims) (b : Box)
    (hW : d.naturalW ≠ 0) (hH : d.naturalH ≠ 0) :
    toPx false d b = ⟨b.x * (d.clientW / d.naturalW), b.y * (d.clientH / d.naturalH),
                      b.w * (d.clientW / d.naturalW), b.h * (d.clientH / d.naturalH)⟩
    ∧ toPx false (applyDims 1000 1400 500 700) ⟨100, 200, 200, 50⟩ = ⟨50, 100, 100, 25⟩ :=
  ⟨by simp [toPx, hW, hH], by norm_num [toPx, applyDims]⟩

/-- Witness for C4 at the scenario frame and region. -/
theorem C4_source_pixel_witness :
    toPx false (applyDims 1000 1400 500 700) ⟨100, 200, 200, 50⟩ = ⟨50, 100, 100, 25⟩ :=
  (C4_source_pixel_per_axis (applyDims 1000 1400 500 700) ⟨100, 200, 200, 50⟩
    (by norm_num [applyDims]) (by norm_num [applyDims])).2

/-- Counterexample to C5: with both intrinsic sizes zero, the source-pixel
region `{100, 200, 200, 50}` is mapped to itself unchanged — width 200, not
a zero-size rectangle. -/
theorem C5_zero_intrinsic_counterexample :
    toPx false (applyDims 0 0 500 700) ⟨100, 200, 200, 50⟩ = ⟨100, 200, 200, 50⟩
    ∧ (toPx false (applyDims 0 0 500 700) ⟨100, 200, 200, 50⟩).w ≠ 0 := by
  refine ⟨by norm_num [toPx, applyDims], ?_⟩
  norm_num [toPx, applyDims]

/-- Claim C5 as amended: when the intrinsic width (resp. height) is zero,
the source-pixel mapping falls back to a per-axis scale of 1, leaving x and
w (resp. y and h) unchanged; no division by zero occurs, but the result is
not a zero-size rectangle. -/
theorem C5_zero_intrinsic_identity_scale (d : Dims) (b : Box) :
    (d.naturalW = 0 → (toPx false d b).x = b.x ∧ (toPx false d b).w = b.w)
    ∧ (d.naturalH = 0 → (toPx false d b).y = b.y ∧ (toPx false d b).h = b.h) := by
  constructor
  · intro h
    simp [toPx, h]
  · intro h
    simp [toPx, h]

/-- Witness for the amended C5 at a frame with zero intrinsic sizes. -/
theorem C5_zero_intrinsic_witness :
    (toPx false (applyDims 0 0 500 700) ⟨3, 4, 5, 6⟩).x = 3
    ∧ (toPx false (applyDims 0 0 500 700) ⟨3, 4, 5, 6⟩).w = 5 :=
  (C5_zero_intrinsic_identity_scale (applyDims 0 0 500 700) ⟨3, 4, 5, 6⟩).1 rfl

/-- Counterexample to C6: from the Fitted state reached by toggling on the
one-box sequence, changing the regions to a DIFFERENT one-box sequence (same
length) leaves the state Fitted, while the initial state for the new
sequence is Zoomed — the prior toggle choice is not discarded. -/
theorem C6_same_length_counterexample :
    (regionsChanged (toggle (initState [⟨0, 0, 1, 1⟩])) [⟨1/4, 1/4, 1/2, 1/2⟩]).zoomOn = false
    ∧ (initState [⟨1/4, 1/4, 1/2, 1/2⟩]).zoomOn = true := by
  constructor
  · simp [regionsChanged, toggle, initState]
  · simp [initState]

/-- Claim C6 as amended: a region change re-enters the initial state for the
new sequence exactly when the region COUNT changes (the reset effect is
keyed on the length); with equal lengths the prior toggle choice is
preserved; and changing to the empty sequence still always yields Fitted
from any reachable state. -/
theorem C6_reset_only_on_length_change :
    (∀ s newBoxes, newBoxes.length ≠ s.boxes.length →
        regionsChanged s newBoxes = initState newBoxes)
    ∧ (∀ s newBoxes, newBoxes.length = s.boxes.length →
        (regionsChanged s newBoxes).zoomOn = s.zoomOn)
    ∧ (∀ s, Reachable s → (regionsChanged s []).zoomOn = false) := by
  refine ⟨?_, ?_, ?_⟩
  · intro s newBoxes hlen
    simp [regionsChanged, hlen, initState]
  · intro s newBoxes hlen
    simp [regionsChanged, hlen]
  · intro s hreach
    by_cases hlen : (0 : Nat) = s.boxes.length
    · simp [regionsChanged, hlen]
      exact reachable_empty_not_zoomed hreach (List.length_eq_zero.mp hlen.symm)
    · simp [regionsChanged, hlen]

/-- Witness for the amended C6: adding a first box resets to the initial
(Zoomed) state. -/
theorem C6_reset_witness :
    regionsChanged (initState []) [⟨0, 0, 1, 1⟩] = initState [⟨0, 0, 1, 1⟩] :=
  C6_reset_only_on_length_change.1 (initState []) [⟨0, 0, 1, 1⟩] (by simp [initState])

/-- Counterexample to C7: a region with negative width, on a ready 800 by
600 frame, maps to a rectangle of width -160 (not zero-size), and as the
first region it still drives the auto-zoom (the computation returns a
transform, scale 4, rather than excluding the degenerate region). -/
theorem C7_negative_box_counterexample :
    (toPx true (applyDims 1000 1000 800 600) ⟨1/2, 1/2, -1/5, 0⟩).w ≠ 0
    ∧ computeZoom true (applyDims 1000 1000 800 600) true [⟨1/2, 1/2, -1/5, 0⟩]
        = some ⟨4, 80, 0⟩ := by
  constructor
  · norm_num [toPx, applyDims]
  · norm_num [computeZoom, toPx, applyDims]

/-- Claim C7 as amended: a region with zero width (resp. height) maps to
zero width (resp. height), but negative sizes are scaled rather than
clamped to zero, and a degenerate region is NOT excluded from zoom-target
eligibility: the first region always drives the auto-zoom on a ready frame,
with the `max(1, _)` guard keeping the computed scale within `[1, 4]`; no
failure is surfaced. -/
theorem C7_degenerate_box_handling (norm : Bool) (d : Dims) (bs : List Box) (b : Box)
    (hhead : bs.head? = some b) (hready : d.ready = true) :
    ((b.w = 0 → (toPx norm d b).w = 0) ∧ (b.h = 0 → (toPx norm d b).h = 0))
    ∧ ∃ t, computeZoom norm d true bs = some t ∧ 1 ≤ t.scale ∧ t.scale ≤ 4 := by
  constructor
  · constructor
    · intro h
      cases norm <;> simp [toPx, h]
    · intro h
      cases norm <;> simp [toPx, h]
  · cases bs with
    | nil => simp at hhead
    | cons hd tl =>
      simp at hhead
      subst hhead
      refine ⟨{ scale := min 4 (max 1 (min (d.clientW / max 1 (toPx norm d hd).w)
                                           (d.clientH / max 1 (toPx norm d hd).h)))
                tx := d.clientW / 2 - ((toPx norm d hd).x + (toPx norm d hd).w / 2)
                ty := d.clientH / 2 - ((toPx norm d hd).y + (toPx norm d hd).h / 2) },
             by simp [computeZoom, hready], ?_, ?_⟩
      · exact le_min (by norm_num) (le_max_left 1 _)
      · exact min_le_left 4 _

/-- Witness for the amended C7 at a zero-size primary region on a ready
frame. -/
theorem C7_degenerate_witness :
    ∃ t, computeZoom true (applyDims 1000 1000 800 600) true [⟨1/2, 1/2, 0, 0⟩] = some t
      ∧ 1 ≤ t.scale ∧ t.scale ≤ 4 :=
  (C7_degenerate_box_handling true (applyDims 1000 1000 800 600) [⟨1/2, 1/2, 0, 0⟩]
    ⟨1/2, 1/2, 0, 0⟩ rfl (by norm_num [applyDims])).2

/-- Claim C8: the `ready` flag of an observed frame is true iff intrinsic
width, intrinsic height, rendered width and rendered height are all
strictly positive; and while `ready` is false the transform computation is
suspended (no zoom transform is produced). -/
theorem C8_ready_iff_positive (nw nh cw ch : ℚ) (norm z : Bool) (d : Dims) (bs : List Box) :
    ((applyDims nw nh cw ch).ready = true ↔ (0 < nw ∧ 0 < nh ∧ 0 < cw ∧ 0 < ch))
    ∧ (d.ready = false → computeZoom norm d z bs = none) := by
  constructor
  · simp [applyDims, and_assoc]
  · intro h
    cases bs with
    | nil => simp [computeZoom]
    | cons hd tl => simp [computeZoom, h]

/-- Witness for C8: a fully laid-out frame is ready, and a frame with zero
intrinsic width yields no zoom transform. -/
theorem C8_ready_witness :
    (applyDims 1000 1400 500 700).ready = true
    ∧ computeZoom true (applyDims 0 1 1 1) true [⟨0, 0, 1, 1⟩] = none :=
  ⟨(C8_ready_iff_positive 1000 1400 500 700 true true (applyDims 0 1 1 1) []).1.mpr
      (by norm_num),
   (C8_ready_iff_positive 1000 1400 500 700 true true (applyDims 0 1 1 1)
      [⟨0, 0, 1, 1⟩]).2 (by norm_num [applyDims])⟩

/-- Claim C9: from the Fitted state with a non-empty region sequence,
toggling goes to Zoomed, and toggling twice returns to the very same state,
so with an unchanged frame the round trip reproduces the original Fitted
rendering exactly. -/
theorem C9_toggle_round_trip (norm : Bool) (d : Dims) (s : OverlayState)
    (hne : s.boxes ≠ []) (hfit : s.zoomOn = false) :
    (toggle s).zoomOn = true
    ∧ toggle (toggle s) = s
    ∧ render norm d (toggle (toggle s)) = render norm d s := by
  obtain ⟨bs, z⟩ := s
  simp at hfit
  subst hfit
  have hiso : bs.isEmpty = false := by
    simp [List.isEmpty_iff]
    simpa using hne
  refine ⟨by simp [toggle, hiso], ?_, ?_⟩
  · simp [toggle, hiso]
  · have h2 : toggle (toggle ⟨bs, false⟩) = (⟨bs, false⟩ : OverlayState) := by
      simp [toggle, hiso]
    rw [h2]

/-- Witness for C9 at a concrete Fitted state with one box. -/
theorem C9_toggle_witness :
    render true (applyDims 1000 1400 500 700)
        (toggle (toggle ⟨[⟨0, 0, 1, 1⟩], false⟩))
      = render true (applyDims 1000 1400 500 700) ⟨[⟨0, 0, 1, 1⟩], false⟩ :=
  (C9_toggle_round_trip true (applyDims 1000 1400 500 700) ⟨[⟨0, 0, 1, 1⟩], false⟩
    (by simp) rfl).2.2

/-- Claim C10: with a non-empty region sequence and a frame that is not yet
ready, the default state is Zoomed, the image is rendered with the identity
transform, and no box outlines are drawn. -/
theorem C10_not_ready_zoomed_renders_plain (norm : Bool) (d : Dims) (bs : List Box)
    (hne : bs ≠ []) (hready : d.ready = false) :
    (initState bs).zoomOn = true
    ∧ render norm d (initState bs) = { transform := identityTransform, outlines := [] } := by
  have hiso : bs.isEmpty = false := by
    simp [List.isEmpty_iff]
    simpa using hne
  refine ⟨by simp [initState, hiso], ?_⟩
  have hz : computeZoom norm d true bs = none := by
    cases bs with
    | nil => simp [computeZoom]
    | cons hd tl => simp [computeZoom, hready]
  simp [render, initState, hiso, renderedTransform, hz]

/-- Witness for C10 at a not-yet-ready frame with one box. -/
theorem C10_not_ready_witness :
    render true (applyDims 0 0 800 0) (initState [⟨0, 0, 1, 1⟩])
      = { transform := identityTransform, outlines := [] } :=
  (C10_not_ready_zoomed_renders_plain true (applyDims 0 0 800 0) [⟨0, 0, 1, 1⟩]
    (by simp) (by norm_num [applyDims])).2

end VoiceRagUI
